import Mathlib

/-!
# Verification of the aerosol resource container core

A shallow embedding of the slot state machine of the `aerosol` crate
(`src/state.rs`, `src/slot.rs`, `src/resource.rs`, `src/sync.rs`,
`src/sync_constructible.rs`).

Modelling choices:

* Resource values are erased to `Val := Nat`; runtime type identity
  (`std::any::TypeId`) is a `Nat` key.  User error values are `Err := String`.
* The type-indexed `anymap` store is an association list `List (Nat × Slot)`
  accessed only through `lookupSlot` / `setSlot` / `removeSlot`, which give it
  map semantics (`entry`, `insert`, `remove` of `anymap`).
* A Rust panic is modelled as `Except.error (p : Panic)` carrying the
  formatted panic message; the store returned next to it is the map state at
  the moment of the panic (both panic sites in `poll_for_slot` precede any
  mutation, so the map is unchanged there).
* `thread::current` / waker thunks are passed as an already-evaluated
  `ThreadOrWaker`; `Waker::will_wake` is modelled as identity of a `Nat` id.
* `x.clone()` on resource values is the identity.
* Waking (`Thread::unpark` / `Waker::wake`) is modelled by returning the list
  of woken waiters from the operation that performs it.
* The blocking loop `wait_for_slot` (src/sync.rs) is modelled for a
  single-threaded execution: a `pending` poll parks the thread and only
  another party can change the store, so from the caller's viewpoint the call
  is `blocked`.  All claim paths settled here are single-caller paths.
-/

namespace Aerosol

/-- Erased resource value (resources are cheaply clonable; clone = id). -/
abbrev Val := Nat

/-- User constructor error type (`Constructible::Error`), erased. -/
abbrev Err := String

/-- Embedding of src/slot.rs `ThreadOrWaker`: a parked thread identity or a task waker.
Thread identity is the OS thread id; waker identity models `will_wake`. -/
inductive ThreadOrWaker where
  | thread (id : Nat)
  | waker (id : Nat)
deriving DecidableEq, Repr

/-- Embedding of src/slot.rs `impl PartialEq for ThreadOrWaker`: threads compare by id,
wakers by `will_wake`, cross-kind is never equal. -/
def ThreadOrWaker.beq : ThreadOrWaker → ThreadOrWaker → Bool
  | .thread l, .thread r => l == r
  | .waker l, .waker r => l == r
  | _, _ => false

/-- Embedding of src/slot.rs `Slot<T>`: a per-type cell, either filled or a placeholder
(UnderConstruction) holding the owning waiter and the registered waiters. -/
inductive Slot where
  | filled (value : Val)
  | placeholder (owner : ThreadOrWaker) (waiting : List ThreadOrWaker)
deriving DecidableEq, Repr

/-- Embedding of src/slot.rs `SlotDesc<T>`: side-effect-free description of a slot. -/
inductive SlotDesc where
  | filled (value : Val)
  | placeholder
deriving DecidableEq, Repr

/-- Embedding of src/slot.rs `Slot::desc`. -/
def Slot.desc : Slot → SlotDesc
  | .filled x => .filled x
  | .placeholder _ _ => .placeholder

/-- Embedding of src/slot.rs `impl Drop for Slot`: dropping a placeholder slot drains the
`waiting` list and wakes (unparks or wakes) every entry; dropping a filled
slot wakes nobody.  The result is the list of woken waiters, in list order. -/
def Slot.dropWakes : Slot → List ThreadOrWaker
  | .filled _ => []
  | .placeholder _ waiting => waiting

/-- The `anymap` store of src/state.rs `InnerAero`, keyed by type identity. -/
abbrev Store := List (Nat × Slot)

/-- Map lookup (`items.get` / occupied-entry inspection). -/
def lookupSlot : Store → Nat → Option Slot
  | [], _ => none
  | (k', sl) :: rest, k => if k' = k then some sl else lookupSlot rest k

/-- Map overwrite-or-add (`items.insert`, vacant-entry `insert`,
occupied-entry in-place mutation). -/
def setSlot : Store → Nat → Slot → Store
  | [], k, sl => [(k, sl)]
  | (k', sl') :: rest, k, sl =>
    if k' = k then (k, sl) :: rest else (k', sl') :: setSlot rest k sl

/-- Map removal (`items.remove`). -/
def removeSlot : Store → Nat → Store
  | [], _ => []
  | (k', sl') :: rest, k =>
    if k' = k then removeSlot rest k else (k', sl') :: removeSlot rest k

/-- A Rust panic, carrying the formatted panic message. -/
structure Panic where
  msg : String
deriving DecidableEq, Repr

/-- Embedding of the src/resource.rs `cyclic_resource::<T>()` panic message. -/
def cyclicMsg (n : String) : String :=
  "Cycle detected when constructing resource `" ++ n ++ "`"

/-- Embedding of the src/resource.rs `duplicate_resource::<T>()` panic message. -/
def duplicateMsg (n : String) : String :=
  "Duplicate resource: attempted to add a second `" ++ n ++ "`"

/-- The message of the Rust runtime panic raised by `waiting[idx] = current`
when `idx` is out of bounds. -/
def indexOutOfBoundsMsg : String :=
  "index out of bounds"

/-- Embedding of `std::task::Poll`. -/
inductive Poll (α : Type) where
  | ready (value : α)
  | pending
deriving DecidableEq, Repr

/-- Embedding of src/state.rs `Aero::poll_for_slot::<T>` for the slot keyed `k` whose type
name is `n`.  Inputs: the caller's wait index (the `&mut Option<usize>`
argument), the caller's current waiter, and `insert_placeholder`.  Output:
either a panic or the poll result paired with the updated wait index, plus
the store after the call.  `waiting[idx] = current` panics when `idx` is out
of bounds, exactly as the Rust indexing does. -/
def pollForSlot (s : Store) (k : Nat) (n : String) (waitIndex : Option Nat)
    (current : ThreadOrWaker) (insertPlaceholder : Bool) :
    Except Panic (Poll (Option Val) × Option Nat) × Store :=
  match lookupSlot s k with
  | some (.filled x) => (.ok (.ready (some x), waitIndex), s)
  | some (.placeholder owner waiting) =>
    if ThreadOrWaker.beq current owner then
      (.error ⟨cyclicMsg n⟩, s)
    else
      match waitIndex with
      | some idx =>
        if idx < waiting.length then
          (.ok (.pending, some idx),
            setSlot s k (.placeholder owner (waiting.set idx current)))
        else
          (.error ⟨indexOutOfBoundsMsg⟩, s)
      | none =>
        (.ok (.pending, some waiting.length),
          setSlot s k (.placeholder owner (waiting ++ [current])))
  | none =>
    if insertPlaceholder then
      (.ok (.ready none, waitIndex), setSlot s k (.placeholder current []))
    else
      (.ok (.ready none, waitIndex), s)

/-- Embedding of src/state.rs `Aero::try_get_slot`. -/
def tryGetSlot (s : Store) (k : Nat) : Option SlotDesc :=
  (lookupSlot s k).map Slot.desc

/-- Embedding of src/state.rs `Aero::fill_placeholder`: overwrite the slot with
`Filled(value)`.  The overwritten slot is dropped, which wakes its waiters
(src/slot.rs `Drop`); the second component is that list of woken waiters. -/
def fillPlaceholder (s : Store) (k : Nat) (v : Val) :
    Store × List ThreadOrWaker :=
  (setSlot s k (.filled v),
    match lookupSlot s k with
    | some sl => sl.dropWakes
    | none => [])

/-- Embedding of src/state.rs `Aero::clear_placeholder`: remove the slot.  The removed
slot is dropped, waking its waiters; the second component is that list. -/
def clearPlaceholder (s : Store) (k : Nat) : Store × List ThreadOrWaker :=
  (removeSlot s k,
    match lookupSlot s k with
    | some sl => sl.dropWakes
    | none => [])

/-- Dropping the whole store drops every slot, waking, for each placeholder
slot, every entry of its waiting list (src/slot.rs `Drop for Slot`). -/
def dropStore : Store → List ThreadOrWaker
  | [] => []
  | (_, sl) :: rest => sl.dropWakes ++ dropStore rest

/-- Embedding of src/state.rs `Aero::insert::<T>`: on an occupied entry panic with the
duplicate-resource diagnostic and leave the map untouched; on a vacant entry
install `Filled(value)`. -/
def insertRes (s : Store) (k : Nat) (n : String) (v : Val) :
    Except Panic Unit × Store :=
  match lookupSlot s k with
  | some _ => (.error ⟨duplicateMsg n⟩, s)
  | none => (.ok (), setSlot s k (.filled v))

/-- Embedding of src/state.rs `Aero::has::<T>`: true iff the slot is `Filled`. -/
def hasRes (s : Store) (k : Nat) : Bool :=
  match lookupSlot s k with
  | some (.filled _) => true
  | _ => false

/-- Embedding of src/resource.rs `ResourceList::test`: `HNil` tests true, `HCons<H, T>`
tests `has::<H>() && T::test()`.  A required list is a list of type keys. -/
def testList : List Nat → Store → Bool
  | [], _ => true
  | k :: rest, s => hasRes s k && testList rest s

/-- Embedding of src/state.rs `Aero::try_into::<R2>`: succeed with the same underlying
store when `R2::test` passes, otherwise return the original handle as the
error.  The store is not modified in either case. -/
def tryIntoAero (keys : List Nat) (s : Store) : Except Store Store :=
  if testList keys s then .ok s else .error s

/-- Result of one blocking wait (src/sync.rs `wait_for_slot`) as observed by
a single caller: the ready value, a propagated panic, or `blocked` when the
poll returned pending and the thread parked (progress then requires another
party).  Paired with the caller's wait index and the store after the call. -/
inductive WaitResult where
  | got (value : Option Val)
  | panicked (p : Panic)
  | blocked
deriving DecidableEq, Repr

/-- Embedding of src/sync.rs `Aerosol::wait_for_slot::<T>` for a single-threaded
execution: `wait_index` starts at `None` and the loop performs its first
`poll_for_slot` with the current thread; a `Pending` result parks the thread
(`blocked` here, since only another party could make progress). -/
def waitForSlot (s : Store) (k : Nat) (n : String) (current : ThreadOrWaker)
    (insertPlaceholder : Bool) : WaitResult × Option Nat × Store :=
  match pollForSlot s k n none current insertPlaceholder with
  | (.ok (.ready x, wi), s') => (.got x, wi, s')
  | (.ok (.pending, wi), s') => (.blocked, wi, s')
  | (.error p, s') => (.panicked p, none, s')

/-- Outcome of an obtain/init style operation, with the resulting store. -/
inductive Outcome (α : Type) where
  | ok (value : α) (s : Store)
  | err (e : Err) (s : Store)
  | panicked (p : Panic) (s : Store)
  | blocked (s : Store)
deriving DecidableEq, Repr

/-- Embedding of src/sync_constructible.rs `Aero::try_obtain::<T>`, parameterised by the
resource's (indirect) constructor, a state transformer that may mutate the
store through the `&Aero` it receives and returns `Result<T, Error>`.
If the slot is filled, return the value; otherwise wait with
`insert_placeholder = true`; if the wait yields a value another party built
it; if it yields `None` this caller installed the placeholder, so run the
constructor, then `fill_placeholder` on success or `clear_placeholder` on
error, propagating the error. -/
def tryObtain (k : Nat) (n : String)
    (construct : Store → Except Err Val × Store)
    (current : ThreadOrWaker) (s : Store) : Outcome Val :=
  match tryGetSlot s k with
  | some (.filled x) => .ok x s
  | _ =>
    match waitForSlot s k n current true with
    | (.got (some x), _, s') => .ok x s'
    | (.got none, _, s') =>
      match construct s' with
      | (.ok v, s2) => .ok v (fillPlaceholder s2 k v).1
      | (.error e, s2) => .err e (clearPlaceholder s2 k).1
    | (.panicked p, _, s') => .panicked p s'
    | (.blocked, _, s') => .blocked s'

/-- Embedding of src/sync_constructible.rs `Aero::try_init::<T>`: as `try_obtain` but
without the fast read path and discarding the produced value. -/
def tryInit (k : Nat) (n : String)
    (construct : Store → Except Err Val × Store)
    (current : ThreadOrWaker) (s : Store) : Outcome Unit :=
  match waitForSlot s k n current true with
  | (.got (some _), _, s') => .ok () s'
  | (.got none, _, s') =>
    match construct s' with
    | (.ok v, s2) => .ok () (fillPlaceholder s2 k v).1
    | (.error e, s2) => .err e (clearPlaceholder s2 k).1
  | (.panicked p, _, s') => .panicked p s'
  | (.blocked, _, s') => .blocked s'

/-- A user `Constructible` implementation: the constructor and the optional
`after_construction` hook, both state transformers over the shared store. -/
structure Ctor where
  construct : Store → Except Err Val × Store
  after_construction : Val → Store → Except Err Unit × Store

/-- Embedding of src/sync_constructible.rs `impl<T: Constructible> IndirectlyConstructible
for T`, `construct`: run the user constructor; on success run
`after_construction` on the produced value; a hook error propagates as a
construction error and the value is discarded. -/
def indirectConstruct (c : Ctor) (s : Store) : Except Err Val × Store :=
  match c.construct s with
  | (.error e, s1) => (.error e, s1)
  | (.ok res, s1) =>
    match c.after_construction res s1 with
    | (.error e, s2) => (.error e, s2)
    | (.ok _, s2) => (.ok res, s2)

/-- Embedding of src/sync_constructible.rs `impl_constructible!` for `Arc<T>`,
`Mutex<T>`, `RwLock<T>` (wrapper injection `wrap`), `construct`: run the
payload's construct, wrap the result, then run the payload's
`after_construction` on the wrapped value (not on the bare payload). -/
def liftConstruct (wrap : Val → Val) (c : Ctor) (s : Store) :
    Except Err Val × Store :=
  match c.construct s with
  | (.error e, s1) => (.error e, s1)
  | (.ok x, s1) =>
    let res := wrap x
    match c.after_construction res s1 with
    | (.error e, s2) => (.error e, s2)
    | (.ok _, s2) => (.ok res, s2)

/-- One member of a constructible resource list: its type key, type name and
its `IndirectlyConstructible::construct`. -/
structure CRes where
  key : Nat
  tyName : String
  ctor : Store → Except Err Val × Store

/-- Embedding of src/sync_constructible.rs `ConstructibleResourceList::construct`:
`HNil` succeeds; `HCons<H, T>` runs `try_init::<H>` (propagating its error)
and then the tail. -/
def constructList (current : ThreadOrWaker) :
    List CRes → Store → Outcome Unit
  | [], s => .ok () s
  | c :: rest, s =>
    match tryInit c.key c.tyName c.ctor current s with
    | .ok _ s' => constructList current rest s'
    | .err e s' => .err e s'
    | .panicked p s' => .panicked p s'
    | .blocked s' => .blocked s'

/-- Embedding of src/sync_constructible.rs `Aero::try_construct_remaining::<R2>`: run
`Remainder::construct` (the compile-time difference list) and on success
return the widened handle to the same underlying store. -/
def tryConstructRemaining (current : ThreadOrWaker) (remainder : List CRes)
    (s : Store) : Outcome Unit :=
  match constructList current remainder s with
  | .ok _ s' => .ok () s'
  | .err e s' => .err e s'
  | .panicked p s' => .panicked p s'
  | .blocked s' => .blocked s'

/-! ## Store lemmas -/

theorem lookupSlot_setSlot_self (s : Store) (k : Nat) (sl : Slot) :
    lookupSlot (setSlot s k sl) k = some sl := by
  induction s with
  | nil => simp [setSlot, lookupSlot]
  | cons hd rest ih =>
    by_cases h : hd.1 = k
    · simp [setSlot, h, lookupSlot]
    · simp [setSlot, h, lookupSlot, ih]

theorem lookupSlot_setSlot_ne (s : Store) (k k' : Nat) (sl : Slot)
    (h : k' ≠ k) : lookupSlot (setSlot s k sl) k' = lookupSlot s k' := by
  have h' : ¬k = k' := fun hh => h hh.symm
  induction s with
  | nil => simp [setSlot, lookupSlot, h']
  | cons hd rest ih =>
    obtain ⟨k0, sl0⟩ := hd
    by_cases hk : k0 = k
    · subst hk
      simp [setSlot, lookupSlot, h']
    · by_cases hk' : k0 = k'
      · simp [setSlot, hk, lookupSlot, hk', h]
      · simp [setSlot, hk, lookupSlot, hk', ih]

theorem lookupSlot_removeSlot_self (s : Store) (k : Nat) :
    lookupSlot (removeSlot s k) k = none := by
  induction s with
  | nil => simp [removeSlot, lookupSlot]
  | cons hd rest ih =>
    by_cases h : hd.1 = k
    · simp [removeSlot, h, ih]
    · simp [removeSlot, h, lookupSlot, ih]

theorem ThreadOrWaker.beq_self (t : ThreadOrWaker) :
    ThreadOrWaker.beq t t = true := by
  cases t <;> simp [ThreadOrWaker.beq]

/-! ## Claim theorems -/

/-- C1: one call to the poll core behaves as the five-step transition: a
Filled slot yields `ready(Some(clone))` without changing the store; an
UnderConstruction slot (owned by someone else) with the wait-index set
overwrites the waiter entry at that index with the current waiter and stays
pending; with no wait-index it appends the current waiter and records its
index; an Absent slot yields `ready(None)`, first installing an
UnderConstruction slot with the caller as owner and no waiters exactly when
`insert_placeholder` is true. -/
theorem poll_for_slot_five_step_transition (s : Store) (k : Nat) (n : String)
    (wi : Option Nat) (cur : ThreadOrWaker) (ip : Bool) :
    (∀ x, lookupSlot s k = some (.filled x) →
      pollForSlot s k n wi cur ip = (.ok (.ready (some x), wi), s)) ∧
    (∀ o w idx, lookupSlot s k = some (.placeholder o w) →
      ThreadOrWaker.beq cur o = false → wi = some idx → idx < w.length →
      pollForSlot s k n wi cur ip =
        (.ok (.pending, some idx),
          setSlot s k (.placeholder o (w.set idx cur)))) ∧
    (∀ o w, lookupSlot s k = some (.placeholder o w) →
      ThreadOrWaker.beq cur o = false → wi = none →
      pollForSlot s k n wi cur ip =
        (.ok (.pending, some w.length),
          setSlot s k (.placeholder o (w ++ [cur])))) ∧
    (lookupSlot s k = none → ip = true →
      pollForSlot s k n wi cur ip =
        (.ok (.ready none, wi), setSlot s k (.placeholder cur []))) ∧
    (lookupSlot s k = none → ip = false →
      pollForSlot s k n wi cur ip = (.ok (.ready none, wi), s)) := by
  refine ⟨?_, ?_, ?_, ?_, ?_⟩
  · intro x h
    simp [pollForSlot, h]
  · intro o w idx h hbeq hwi hlt
    subst hwi
    simp [pollForSlot, h, hbeq, hlt]
  · intro o w h hbeq hwi
    subst hwi
    simp [pollForSlot, h, hbeq]
  · intro h hip
    subst hip
    simp [pollForSlot, h]
  · intro h hip
    subst hip
    simp [pollForSlot, h]

/-- Witness for C1: a concrete re-registration poll (step 3, wait-index set)
and a concrete placeholder installation (step 4). -/
theorem poll_for_slot_five_step_transition_witness :
    pollForSlot [(0, Slot.placeholder (.thread 0) [.thread 1])] 0 "T"
        (some 0) (.thread 2) true =
      (.ok (.pending, some 0),
        setSlot [(0, Slot.placeholder (.thread 0) [.thread 1])] 0
          (Slot.placeholder (.thread 0)
            ([ThreadOrWaker.thread 1].set 0 (.thread 2)))) ∧
    pollForSlot [] 5 "U" none (.thread 3) true =
      (.ok (.ready none, none), setSlot [] 5 (Slot.placeholder (.thread 3) [])) :=
  ⟨(poll_for_slot_five_step_transition
      [(0, Slot.placeholder (.thread 0) [.thread 1])] 0 "T" (some 0)
      (.thread 2) true).2.1 (.thread 0) [.thread 1] 0 rfl (by decide) rfl
      (by decide),
    (poll_for_slot_five_step_transition [] 5 "U" none (.thread 3)
      true).2.2.2.1 rfl rfl⟩

/-- C2: when the poll core finds the slot UnderConstruction and the caller's
current waiter equals the recorded owner, it fails fast with the
cyclic-resource panic — the message contains "Cycle detected" and the type
name — leaving the store unchanged (no enqueue) and not returning pending. -/
theorem poll_for_slot_cycle_detected (s : Store) (k : Nat) (n : String)
    (wi : Option Nat) (cur o : ThreadOrWaker) (w : List ThreadOrWaker)
    (ip : Bool) (hslot : lookupSlot s k = some (.placeholder o w))
    (hown : ThreadOrWaker.beq cur o = true) :
    pollForSlot s k n wi cur ip = (.error ⟨cyclicMsg n⟩, s) ∧
    List.IsInfix "Cycle detected".data (cyclicMsg n).data ∧
    List.IsInfix n.data (cyclicMsg n).data := by
  refine ⟨by simp [pollForSlot, hslot, hown], ?_, ?_⟩
  · refine ⟨[], " when constructing resource `".data ++ n.data ++ "`".data, ?_⟩
    have hsplit : "Cycle detected when constructing resource `".data =
        "Cycle detected".data ++ " when constructing resource `".data := by
      decide
    simp [cyclicMsg, String.data_append, hsplit]
  · refine ⟨"Cycle detected when constructing resource `".data, "`".data, ?_⟩
    simp [cyclicMsg, String.data_append]

/-- Witness for C2: a self-poll on a slot the same thread owns panics with
the cycle diagnostic. -/
theorem poll_for_slot_cycle_detected_witness :
    pollForSlot [(0, Slot.placeholder (.thread 7) [])] 0 "DummyCyclic" none
      (.thread 7) true =
      (.error ⟨cyclicMsg "DummyCyclic"⟩,
        [(0, Slot.placeholder (.thread 7) [])]) :=
  (poll_for_slot_cycle_detected [(0, Slot.placeholder (.thread 7) [])] 0
    "DummyCyclic" none (.thread 7) (.thread 7) [] true rfl (by decide)).1

/-- C3: starting from an Absent slot, `try_obtain` installs the placeholder;
if the (indirect) constructor then returns an error, the slot is removed
entirely — the store is left with no slot for the key, so a later obtain
re-attempts from Absent — and the error is returned; if it returns a value,
the slot transitions to Filled with that value and the value is returned. -/
theorem try_obtain_rollback_and_commit (k : Nat) (n : String)
    (construct : Store → Except Err Val × Store) (cur : ThreadOrWaker)
    (s : Store) (habs : lookupSlot s k = none) :
    (∀ e s2, construct (setSlot s k (.placeholder cur [])) = (.error e, s2) →
      tryObtain k n construct cur s = .err e (removeSlot s2 k) ∧
      lookupSlot (removeSlot s2 k) k = none) ∧
    (∀ v s2, construct (setSlot s k (.placeholder cur [])) = (.ok v, s2) →
      tryObtain k n construct cur s = .ok v (setSlot s2 k (.filled v)) ∧
      lookupSlot (setSlot s2 k (.filled v)) k = some (.filled v)) := by
  constructor
  · intro e s2 hc
    refine ⟨?_, lookupSlot_removeSlot_self s2 k⟩
    simp [tryObtain, tryGetSlot, habs, waitForSlot, pollForSlot, hc,
      clearPlaceholder]
  · intro v s2 hc
    refine ⟨?_, lookupSlot_setSlot_self s2 k _⟩
    simp [tryObtain, tryGetSlot, habs, waitForSlot, pollForSlot, hc,
      fillPlaceholder]

/-- Witness for C3: a failing constructor rolls the slot back and returns
the error; a succeeding constructor fills the slot with its value. -/
theorem try_obtain_rollback_and_commit_witness :
    (tryObtain 0 "T" (fun s => (.error "boom", s)) (.thread 0) [] =
      .err "boom" (removeSlot (setSlot [] 0 (.placeholder (.thread 0) [])) 0)) ∧
    (tryObtain 0 "T" (fun s => (.ok 42, s)) (.thread 0) [] =
      .ok 42 (setSlot (setSlot [] 0 (.placeholder (.thread 0) [])) 0
        (.filled 42))) :=
  ⟨((try_obtain_rollback_and_commit 0 "T" (fun s => (.error "boom", s))
      (.thread 0) [] rfl).1 "boom" _ rfl).1,
    ((try_obtain_rollback_and_commit 0 "T" (fun s => (.ok 42, s))
      (.thread 0) [] rfl).2 42 _ rfl).1⟩

/-- C4: under `try_obtain` of an indirectly constructible resource starting
from an Absent slot, the `after_construction` hook is invoked exactly when
the constructor succeeds (on failure the outcome is the same for every
hook), it runs while the placeholder is still installed — a recursive obtain
from the hook on the constructor's output store panics with the cycle
diagnostic — and a hook error is a construction failure: the slot is
removed, the error propagated, and the produced value discarded; only on
hook success is the slot filled with the value. -/
theorem try_obtain_after_construction_hook (k : Nat) (n : String) (c : Ctor)
    (cur : ThreadOrWaker) (s : Store) (habs : lookupSlot s k = none) :
    (∀ e s2,
      c.construct (setSlot s k (.placeholder cur [])) = (.error e, s2) →
      tryObtain k n (indirectConstruct c) cur s = .err e (removeSlot s2 k) ∧
      ∀ g, tryObtain k n (indirectConstruct ⟨c.construct, g⟩) cur s =
        tryObtain k n (indirectConstruct c) cur s) ∧
    (∀ v s2, c.construct (setSlot s k (.placeholder cur [])) = (.ok v, s2) →
      (∀ w construct2, lookupSlot s2 k = some (.placeholder cur w) →
        tryObtain k n construct2 cur s2 = .panicked ⟨cyclicMsg n⟩ s2) ∧
      (∀ e s3, c.after_construction v s2 = (.error e, s3) →
        tryObtain k n (indirectConstruct c) cur s =
          .err e (removeSlot s3 k)) ∧
      (∀ u s3, c.after_construction v s2 = (.ok u, s3) →
        tryObtain k n (indirectConstruct c) cur s =
          .ok v (setSlot s3 k (.filled v)))) := by
  constructor
  · intro e s2 hc
    constructor
    · simp [tryObtain, tryGetSlot, habs, waitForSlot, pollForSlot,
        indirectConstruct, hc, clearPlaceholder]
    · intro g
      simp [tryObtain, tryGetSlot, habs, waitForSlot, pollForSlot,
        indirectConstruct, hc]
  · intro v s2 hc
    refine ⟨?_, ?_, ?_⟩
    · intro w construct2 hp
      simp [tryObtain, tryGetSlot, hp, Slot.desc, waitForSlot, pollForSlot,
        ThreadOrWaker.beq_self]
    · intro e s3 hh
      simp [tryObtain, tryGetSlot, habs, waitForSlot, pollForSlot,
        indirectConstruct, hc, hh, clearPlaceholder]
    · intro u s3 hh
      simp [tryObtain, tryGetSlot, habs, waitForSlot, pollForSlot,
        indirectConstruct, hc, hh, fillPlaceholder]

/-- Witness for C4: with a constructor that succeeds and a hook that fails,
`try_obtain` removes the slot and returns the hook's error; a recursive
obtain from within the hook panics with the cycle diagnostic. -/
theorem try_obtain_after_construction_hook_witness :
    (tryObtain 0 "T"
        (indirectConstruct ⟨fun s => (.ok 5, s),
          fun _ s => (.error "hookfail", s)⟩) (.thread 1) [] =
      .err "hookfail"
        (removeSlot (setSlot [] 0 (.placeholder (.thread 1) [])) 0)) ∧
    (tryObtain 0 "T" (fun s => (.ok 9, s)) (.thread 1)
        (setSlot [] 0 (.placeholder (.thread 1) [])) =
      .panicked ⟨cyclicMsg "T"⟩ (setSlot [] 0 (.placeholder (.thread 1) []))) :=
  ⟨(((try_obtain_after_construction_hook 0 "T"
      ⟨fun s => (.ok 5, s), fun _ s => (.error "hookfail", s)⟩
      (.thread 1) [] rfl).2 5 _ rfl).2.1 "hookfail" _ rfl),
    (((try_obtain_after_construction_hook 0 "T"
      ⟨fun s => (.ok 5, s), fun _ s => (.error "hookfail", s)⟩
      (.thread 1) [] rfl).2 5 _ rfl).1 [] (fun s => (.ok 9, s)) rfl)⟩

/-- C5: the drop handler of an UnderConstruction slot drains and wakes every
entry of its waiters list, and a slot holding waiters `w` wakes exactly `w`
on each of the three exits from UnderConstruction: replacement by a Filled
slot (`fill_placeholder`), removal (`clear_placeholder`), and drop of the
whole store (every waiter of every placeholder slot appears among the woken). -/
theorem waiters_woken_on_exit (s : Store) (k : Nat) (o : ThreadOrWaker)
    (w : List ThreadOrWaker) (v : Val) :
    Slot.dropWakes (.placeholder o w) = w ∧
    (lookupSlot s k = some (.placeholder o w) →
      fillPlaceholder s k v = (setSlot s k (.filled v), w) ∧
      lookupSlot (fillPlaceholder s k v).1 k = some (.filled v) ∧
      clearPlaceholder s k = (removeSlot s k, w) ∧
      lookupSlot (clearPlaceholder s k).1 k = none) ∧
    ((k, Slot.placeholder o w) ∈ s → ∀ x ∈ w, x ∈ dropStore s) := by
  refine ⟨rfl, ?_, ?_⟩
  · intro h
    refine ⟨?_, ?_, ?_, ?_⟩ <;>
      simp [fillPlaceholder, clearPlaceholder, h, Slot.dropWakes,
        lookupSlot_setSlot_self, lookupSlot_removeSlot_self]
  · induction s with
    | nil => intro hmem; simp at hmem
    | cons hd rest ih =>
      intro hmem x hx
      obtain ⟨k0, sl0⟩ := hd
      rcases List.mem_cons.mp hmem with h1 | h2
      · rw [show ((k0, sl0) : Nat × Slot) = (k, .placeholder o w) from h1.symm]
        simp only [dropStore, Slot.dropWakes, List.mem_append]
        exact Or.inl hx
      · simp only [dropStore, List.mem_append]
        exact Or.inr (ih h2 x hx)

/-- Witness for C5: filling and clearing a concrete placeholder slot wakes
exactly its two registered waiters. -/
theorem waiters_woken_on_exit_witness :
    fillPlaceholder [(3, Slot.placeholder (.thread 0) [.thread 1, .waker 2])]
        3 9 =
      (setSlot [(3, Slot.placeholder (.thread 0) [.thread 1, .waker 2])] 3
        (.filled 9), [.thread 1, .waker 2]) ∧
    clearPlaceholder [(3, Slot.placeholder (.thread 0) [.thread 1, .waker 2])]
        3 =
      (removeSlot [(3, Slot.placeholder (.thread 0) [.thread 1, .waker 2])] 3,
        [.thread 1, .waker 2]) :=
  ⟨((waiters_woken_on_exit
      [(3, Slot.placeholder (.thread 0) [.thread 1, .waker 2])] 3 (.thread 0)
      [.thread 1, .waker 2] 9).2.1 rfl).1,
    ((waiters_woken_on_exit
      [(3, Slot.placeholder (.thread 0) [.thread 1, .waker 2])] 3 (.thread 0)
      [.thread 1, .waker 2] 9).2.1 rfl).2.2.1⟩

/-- C6: `insert` on an Absent slot transitions it to `Filled(v)` and leaves
every other slot unchanged; if a slot is already present in any state,
`insert` panics with the duplicate-resource diagnostic naming the type and
does not modify the store. -/
theorem insert_absent_or_duplicate (s : Store) (k : Nat) (n : String)
    (v : Val) :
    (lookupSlot s k = none →
      insertRes s k n v = (.ok (), setSlot s k (.filled v)) ∧
      lookupSlot (setSlot s k (.filled v)) k = some (.filled v) ∧
      ∀ k', k' ≠ k →
        lookupSlot (setSlot s k (.filled v)) k' = lookupSlot s k') ∧
    (∀ sl, lookupSlot s k = some sl →
      insertRes s k n v = (.error ⟨duplicateMsg n⟩, s) ∧
      List.IsInfix n.data (duplicateMsg n).data) := by
  constructor
  · intro h
    refine ⟨by simp [insertRes, h], lookupSlot_setSlot_self s k _, ?_⟩
    intro k' hk'
    exact lookupSlot_setSlot_ne s k k' _ hk'
  · intro sl h
    refine ⟨by simp [insertRes, h], ?_⟩
    refine ⟨"Duplicate resource: attempted to add a second `".data,
      "`".data, ?_⟩
    simp [duplicateMsg, String.data_append]

/-- Witness for C6: inserting into an empty store fills the slot; inserting
over a filled slot panics with the duplicate diagnostic. -/
theorem insert_absent_or_duplicate_witness :
    insertRes [] 1 "i32" 42 = (.ok (), setSlot [] 1 (.filled 42)) ∧
    insertRes [(1, Slot.filled 13)] 1 "i32" 42 =
      (.error ⟨duplicateMsg "i32"⟩, [(1, Slot.filled 13)]) :=
  ⟨((insert_absent_or_duplicate [] 1 "i32" 42).1 rfl).1,
    ((insert_absent_or_duplicate [(1, Slot.filled 13)] 1 "i32" 42).2
      (Slot.filled 13) rfl).1⟩

/-- C7: the automatic smart-pointer lift runs the payload's constructor,
wraps the result, then runs the payload's `after_construction` hook on the
wrapped value — the outcome depends on the hook only through its value at
the wrapped result, never at the bare payload — and on hook success the
wrapped value is returned; a constructor failure skips the hook entirely. -/
theorem lift_construct_wraps_before_hook (wrap : Val → Val) (c : Ctor)
    (s : Store) :
    (∀ e s1, c.construct s = (.error e, s1) →
      liftConstruct wrap c s = (.error e, s1) ∧
      ∀ g, liftConstruct wrap ⟨c.construct, g⟩ s = liftConstruct wrap c s) ∧
    (∀ v s1, c.construct s = (.ok v, s1) →
      (∀ e s2, c.after_construction (wrap v) s1 = (.error e, s2) →
        liftConstruct wrap c s = (.error e, s2)) ∧
      (∀ u s2, c.after_construction (wrap v) s1 = (.ok u, s2) →
        liftConstruct wrap c s = (.ok (wrap v), s2)) ∧
      (∀ g h, g (wrap v) s1 = h (wrap v) s1 →
        liftConstruct wrap ⟨c.construct, g⟩ s =
          liftConstruct wrap ⟨c.construct, h⟩ s)) := by
  constructor
  · intro e s1 hc
    exact ⟨by simp [liftConstruct, hc], fun g => by simp [liftConstruct, hc]⟩
  · intro v s1 hc
    refine ⟨?_, ?_, ?_⟩
    · intro e s2 hh
      simp [liftConstruct, hc, hh]
    · intro u s2 hh
      simp [liftConstruct, hc, hh]
    · intro g h hgh
      simp [liftConstruct, hc, hgh]

/-- Witness for C7: with `wrap` doubling the payload, the hook observes the
wrapped value 10 (not the bare 5) and the wrapped value is returned. -/
theorem lift_construct_wraps_before_hook_witness :
    liftConstruct (fun x => 2 * x)
      ⟨fun s => (.ok 5, s), fun _ s => (.ok (), s)⟩ [] = (.ok 10, []) :=
  ((lift_construct_wraps_before_hook (fun x => 2 * x)
      ⟨fun s => (.ok 5, s), fun _ s => (.ok (), s)⟩ []).2 5 [] rfl).2.1 () []
    rfl

/-- C8: `try_into` succeeds, yielding a handle to the same underlying store,
exactly when every resource type checked for the target list has a Filled
slot; otherwise it returns an error variant holding the original handle; the
store is not modified in either case (both arms carry the store unchanged). -/
theorem try_into_checks_every_target (keys : List Nat) (s : Store) :
    (testList keys s = true ↔ ∀ k ∈ keys, hasRes s k = true) ∧
    (testList keys s = true → tryIntoAero keys s = .ok s) ∧
    (testList keys s = false → tryIntoAero keys s = .error s) := by
  refine ⟨?_, fun h => by simp [tryIntoAero, h], fun h => by
    simp [tryIntoAero, h]⟩
  induction keys with
  | nil => simp [testList]
  | cons k rest ih => simp [testList, ih, Bool.and_eq_true]

/-- Witness for C8: with only the slot for key 1 filled, converting to the
target list [1] succeeds with the same store and converting to [1, 2] fails
holding the original handle. -/
theorem try_into_checks_every_target_witness :
    tryIntoAero [1] [(1, Slot.filled 7)] = .ok [(1, Slot.filled 7)] ∧
    tryIntoAero [1, 2] [(1, Slot.filled 7)] = .error [(1, Slot.filled 7)] :=
  ⟨(try_into_checks_every_target [1] [(1, Slot.filled 7)]).2.1 rfl,
    (try_into_checks_every_target [1, 2] [(1, Slot.filled 7)]).2.2 rfl⟩

/-- C9: `try_construct_remaining` runs `try_init` for each member of the
compile-time remainder in declaration order — the empty remainder succeeds
with the store unchanged, a failing head stops the run and propagates its
error regardless of the tail, and a succeeding head continues with the tail
on the head's output store — and when the whole remainder list succeeds the
widened handle is returned with that same resulting store. -/
theorem construct_remaining_in_order (cur : ThreadOrWaker) :
    (∀ s, tryConstructRemaining cur [] s = .ok () s) ∧
    (∀ c rest s e s', tryInit c.key c.tyName c.ctor cur s = .err e s' →
      tryConstructRemaining cur (c :: rest) s = .err e s') ∧
    (∀ c rest s s', tryInit c.key c.tyName c.ctor cur s = .ok () s' →
      constructList cur (c :: rest) s = constructList cur rest s') ∧
    (∀ l s s', constructList cur l s = .ok () s' →
      tryConstructRemaining cur l s = .ok () s') := by
  refine ⟨fun s => rfl, ?_, ?_, ?_⟩
  · intro c rest s e s' h
    simp [tryConstructRemaining, constructList, h]
  · intro c rest s s' h
    simp [constructList, h]
  · intro l s s' h
    simp [tryConstructRemaining, h]

/-- Witness for C9: a two-member remainder whose head constructor fails
stops at the head and propagates its error; with a succeeding head the tail
runs on the head's output store. -/
theorem construct_remaining_in_order_witness :
    tryConstructRemaining (.thread 0)
        [⟨0, "A", fun s => (.error "nope", s)⟩,
          ⟨1, "B", fun s => (.ok 2, s)⟩] [] =
      .err "nope" (removeSlot (setSlot [] 0 (.placeholder (.thread 0) [])) 0) ∧
    constructList (.thread 0)
        [⟨0, "A", fun s => (.ok 1, s)⟩, ⟨1, "B", fun s => (.ok 2, s)⟩] [] =
      constructList (.thread 0) [⟨1, "B", fun s => (.ok 2, s)⟩]
        (fillPlaceholder (setSlot [] 0 (.placeholder (.thread 0) [])) 0 1).1 :=
  ⟨(construct_remaining_in_order (.thread 0)).2.1
      ⟨0, "A", fun s => (.error "nope", s)⟩ [⟨1, "B", fun s => (.ok 2, s)⟩]
      [] "nope" _ rfl,
    (construct_remaining_in_order (.thread 0)).2.2.1
      ⟨0, "A", fun s => (.ok 1, s)⟩ [⟨1, "B", fun s => (.ok 2, s)⟩] [] _ rfl⟩

/-- A sequence of intervening poll-core calls on the slot keyed `k`, each by
some party with its own type name, wait index, waiter and insert flag; the
resulting store keeps whatever each call (including a panicking one) leaves
behind.  Used to speak about what happens to one slot between two polls of a
fixed caller. -/
def pollSeq (k : Nat) :
    List (String × Option Nat × ThreadOrWaker × Bool) → Store → Store
  | [], s => s
  | (n, wi, cur, ip) :: rest, s =>
    pollSeq k rest (pollForSlot s k n wi cur ip).2

/-- Counterexample for C10: a reachable interleaving in which a re-poll with
a stale wait-index finds a fresh placeholder whose waiters list is shorter
than the index requires, so the re-registration write `waiting[idx]` is out
of bounds.  Thread 0 installs the placeholder; thread 1 registers at index
0 and parks; construction fails and `clear_placeholder` removes the slot,
waking thread 1; before thread 1 re-polls, thread 2 installs a fresh
placeholder with an empty waiters list; thread 1's re-poll with wait-index
`Some 0` then panics instead of re-registering. -/
theorem stale_wait_index_out_of_bounds :
    pollForSlot [] 0 "T" none (.thread 0) true =
      (.ok (.ready none, none), [(0, .placeholder (.thread 0) [])]) ∧
    pollForSlot [(0, .placeholder (.thread 0) [])] 0 "T" none (.thread 1)
        true =
      (.ok (.pending, some 0), [(0, .placeholder (.thread 0) [.thread 1])]) ∧
    clearPlaceholder [(0, .placeholder (.thread 0) [.thread 1])] 0 =
      ([], [.thread 1]) ∧
    pollForSlot [] 0 "T" none (.thread 2) true =
      (.ok (.ready none, none), [(0, .placeholder (.thread 2) [])]) ∧
    pollForSlot [(0, .placeholder (.thread 2) [])] 0 "T" (some 0) (.thread 1)
        true =
      (.error ⟨indexOutOfBoundsMsg⟩, [(0, .placeholder (.thread 2) [])]) ∧
    ¬0 < ([] : List ThreadOrWaker).length := by
  exact ⟨rfl, rfl, rfl, rfl, rfl, by decide⟩

/-- C10 (amended): the re-registration write is in bounds for as long as the
placeholder under which the index was assigned stays installed: any
intervening poll-core call on that slot leaves it a placeholder with the
same owner and a waiters list no shorter, so an in-bounds index stays in
bounds and the re-poll re-registers successfully; the bound can only fail
when the placeholder is removed and a fresh one installed (the
counterexample), in which case the write panics. -/
theorem wait_index_in_bounds_while_placeholder_lives (k : Nat) (n : String)
    (o : ThreadOrWaker) (idx : Nat) :
    ∀ (ops : List (String × Option Nat × ThreadOrWaker × Bool)) (s : Store)
      (w : List ThreadOrWaker),
      lookupSlot s k = some (.placeholder o w) → idx < w.length →
      ∃ w', lookupSlot (pollSeq k ops s) k = some (.placeholder o w') ∧
        w.length ≤ w'.length ∧
        ∀ cur, ThreadOrWaker.beq cur o = false →
          pollForSlot (pollSeq k ops s) k n (some idx) cur true =
            (.ok (.pending, some idx),
              setSlot (pollSeq k ops s) k
                (.placeholder o (w'.set idx cur))) := by
  intro ops
  induction ops with
  | nil =>
    intro s w hslot hidx
    refine ⟨w, by simpa [pollSeq] using hslot, le_refl _, ?_⟩
    intro cur hcur
    simp [pollSeq, pollForSlot, hslot, hcur, hidx]
  | cons op rest ih =>
    intro s w hslot hidx
    obtain ⟨n2, wi2, cur2, ip2⟩ := op
    have step : ∃ w1 : List ThreadOrWaker,
        lookupSlot (pollForSlot s k n2 wi2 cur2 ip2).2 k =
          some (.placeholder o w1) ∧ w.length ≤ w1.length := by
      by_cases hc : ThreadOrWaker.beq cur2 o = true
      · exact ⟨w, by simp [pollForSlot, hslot, hc], le_refl _⟩
      · rw [Bool.not_eq_true] at hc
        rcases wi2 with _ | j
        · refine ⟨w ++ [cur2], ?_, by simp⟩
          simp [pollForSlot, hslot, hc, lookupSlot_setSlot_self]
        · by_cases hj : j < w.length
          · refine ⟨w.set j cur2, ?_, by simp⟩
            simp [pollForSlot, hslot, hc, hj, lookupSlot_setSlot_self]
          · exact ⟨w, by simp [pollForSlot, hslot, hc, hj], le_refl _⟩
    obtain ⟨w1, hw1, hlen1⟩ := step
    obtain ⟨w', hw', hlen', hreg⟩ :=
      ih (pollForSlot s k n2 wi2 cur2 ip2).2 w1 hw1
        (lt_of_lt_of_le hidx hlen1)
    exact ⟨w', by simpa [pollSeq] using hw', le_trans hlen1 hlen',
      fun cur hcur => by simpa [pollSeq] using hreg cur hcur⟩

/-- Witness for the amended C10: after one intervening registration by
thread 5, thread 1's re-poll with wait-index 0 still re-registers in
bounds. -/
theorem wait_index_in_bounds_while_placeholder_lives_witness :
    pollForSlot
        (pollSeq 0 [("U", none, .thread 5, true)]
          [(0, .placeholder (.thread 0) [.thread 1])]) 0 "T" (some 0)
        (.thread 1) true =
      (.ok (.pending, some 0),
        setSlot
          (pollSeq 0 [("U", none, .thread 5, true)]
            [(0, .placeholder (.thread 0) [.thread 1])]) 0
          (.placeholder (.thread 0)
            ([ThreadOrWaker.thread 1, .thread 5].set 0 (.thread 1)))) := by
  obtain ⟨w', hw', hlen', hreg⟩ :=
    wait_index_in_bounds_while_placeholder_lives 0 "T" (.thread 0) 0
      [("U", none, .thread 5, true)] [(0, .placeholder (.thread 0) [.thread 1])]
      [.thread 1] rfl (by decide)
  have hw : w' = [ThreadOrWaker.thread 1, .thread 5] := by
    have hconc : lookupSlot
        (pollSeq 0 [("U", none, .thread 5, true)]
          [(0, .placeholder (.thread 0) [.thread 1])]) 0 =
        some (.placeholder (.thread 0) [ThreadOrWaker.thread 1, .thread 5]) :=
      rfl
    rw [hconc] at hw'
    exact (Slot.placeholder.injEq _ _ _ _).mp (Option.some.inj hw') |>.2.symm
  rw [← hw]
  exact hreg (.thread 1) (by decide)

end Aerosol
